import Mathlib

/-
Verification of the playtest automation framework's core behaviors:
layered configuration resolution (BrowserFactory / MobileFactory),
factory lifecycle (memoized creation, idempotent best-effort close),
failure-artifact collection (conftest hooks), and mobile locator parsing.

The Python sources are shallowly embedded: Python dicts with string keys
become association lists over an inductive value type `PyVal`; code that
can raise returns `Except PyErr`; `try/except Exception: pass` blocks
become explicit catch combinators.
-/

/-- A Python exception (the code only distinguishes raised vs not). -/
inductive PyErr where
  | err
deriving Repr, DecidableEq

/-- A Python value as stored in the YAML-derived configuration dicts. -/
inductive PyVal where
  | str (s : String)
  | int (n : Int)
  | bool (b : Bool)
  | dict (d : List (String × PyVal))
  | list (xs : List String)

/-- A Python dict with string keys, insertion-ordered. -/
abbrev PyDict := List (String × PyVal)

/-- `d.get(k)` / `d[k]` lookup: first binding for `k`. -/
def pyGet (d : PyDict) (k : String) : Option PyVal :=
  match d with
  | [] => none
  | (k', v) :: rest => if k' = k then some v else pyGet rest k

/-- `d.get(k, dflt)`. -/
def pyGetD (d : PyDict) (k : String) (dflt : PyVal) : PyVal :=
  (pyGet d k).getD dflt

/-- `d[k] = v`: replace the first binding in place, else append. -/
def pySet (d : PyDict) (k : String) (v : PyVal) : PyDict :=
  match d with
  | [] => [(k, v)]
  | (k', v') :: rest => if k' = k then (k', v) :: rest else (k', v') :: pySet rest k v

/-- `d.setdefault(k1, {})[k2] = v`: merge at the leaf of a nested key.
Raises `TypeError` (modelled as `none`) when `d[k1]` exists and is not a dict. -/
def pySetNested (d : PyDict) (k1 k2 : String) (v : PyVal) : Option PyDict :=
  match pyGet d k1 with
  | some (PyVal.dict sub) => some (pySet d k1 (PyVal.dict (pySet sub k2 v)))
  | some _ => none
  | none => some (pySet d k1 (PyVal.dict [(k2, v)]))

/-- Python truthiness of a value. -/
def pyTruthy : PyVal → Bool
  | PyVal.str s => !s.isEmpty
  | PyVal.int n => n != 0
  | PyVal.bool b => b
  | PyVal.dict d => !d.isEmpty
  | PyVal.list xs => !xs.isEmpty

/-- Python `a or b` on an optional first operand (`None` and `""` are falsy). -/
def pyOrVal (a : Option PyVal) (b : PyVal) : PyVal :=
  match a with
  | some v => if pyTruthy v then v else b
  | none => b

/-- `if os.environ.get(X):` — the env value participates only when set and non-empty. -/
def truthyOpt (o : Option String) : Option String :=
  match o with
  | some s => if s.isEmpty then none else some s
  | none => none

/-- Python `s.lower()` (character-wise, as the code only lowercases ASCII
configuration tokens). -/
def pyLower (s : String) : String :=
  String.mk (s.data.map Char.toLower)

/-- Digit-string accumulator for `pyInt`. -/
def digitsToNat (acc : Nat) : List Char → Option Nat
  | [] => some acc
  | c :: cs => if c.isDigit then digitsToNat (acc * 10 + (c.toNat - 48)) cs else none

/-- Python `int(s)` (raises on non-numeric input, modelled as `none`):
an optional sign followed by at least one decimal digit. -/
def pyInt (s : String) : Option Int :=
  match s.data with
  | [] => none
  | '-' :: cs =>
    match cs with
    | [] => none
    | _ => (digitsToNat 0 cs).map (fun n => -(n : Int))
  | '+' :: cs =>
    match cs with
    | [] => none
    | _ => (digitsToNat 0 cs).map (fun n => (n : Int))
  | cs => (digitsToNat 0 cs).map (fun n => (n : Int))

/-! ## BrowserFactory configuration pipeline (src/adapters/ui/browser_factory.py) -/

/-- The recognized browser environment variables (`env_mappings` keys). -/
structure BrowserEnv where
  BROWSER_TYPE : Option String
  BROWSER_HEADLESS : Option String
  BROWSER_SLOW_MO : Option String
  BROWSER_TIMEOUT : Option String
  BROWSER_VIEWPORT_WIDTH : Option String
  BROWSER_VIEWPORT_HEIGHT : Option String

/-- All browser environment variables unset. -/
def BrowserEnv.empty : BrowserEnv :=
  ⟨none, none, none, none, none, none⟩

/-- CLI overrides consumed by `BrowserFactory._apply_cli_overrides`. -/
structure BrowserCliOverrides where
  browser_type : Option String
  headed : Bool
  headless : Option Bool
  slow_mo : Option Int

/-- No CLI overrides. -/
def BrowserCliOverrides.empty : BrowserCliOverrides :=
  ⟨none, false, none, none⟩

/-- One `env_mappings` iteration with converter `str`. -/
def envStepStr (d : PyDict) (key : String) (v : Option String) : PyDict :=
  match v with
  | some s => if s.isEmpty then d else pySet d key (PyVal.str s)
  | none => d

/-- One `env_mappings` iteration with converter `lambda x: x.lower() == "true"`. -/
def envStepBool (d : PyDict) (key : String) (v : Option String) : PyDict :=
  match v with
  | some s => if s.isEmpty then d else pySet d key (PyVal.bool (pyLower s == "true"))
  | none => d

/-- One `env_mappings` iteration with converter `int` (which may raise). -/
def envStepInt (d : PyDict) (key : String) (v : Option String) : Option PyDict :=
  match v with
  | some s =>
    if s.isEmpty then some d
    else (pyInt s).map (fun n => pySet d key (PyVal.int n))
  | none => some d

/-- One `env_mappings` iteration for a nested key `k1.k2` with converter `int`. -/
def envStepNestedInt (d : PyDict) (k1 k2 : String) (v : Option String) : Option PyDict :=
  match v with
  | some s =>
    if s.isEmpty then some d
    else do
      let n ← pyInt s
      pySetNested d k1 k2 (PyVal.int n)
  | none => some d

/-- `BrowserFactory._apply_env_overrides`, unrolled in `env_mappings` insertion order. -/
def applyEnvOverridesB (d : PyDict) (env : BrowserEnv) : Option PyDict :=
  let d := envStepStr d "type" env.BROWSER_TYPE
  let d := envStepBool d "headless" env.BROWSER_HEADLESS
  (envStepInt d "slow_mo" env.BROWSER_SLOW_MO).bind fun d =>
  (envStepInt d "timeout" env.BROWSER_TIMEOUT).bind fun d =>
  (envStepNestedInt d "viewport" "width" env.BROWSER_VIEWPORT_WIDTH).bind fun d =>
  envStepNestedInt d "viewport" "height" env.BROWSER_VIEWPORT_HEIGHT

/-- `BrowserFactory._apply_cli_overrides`. -/
def applyCliOverridesB (d : PyDict) (cli : BrowserCliOverrides) : PyDict :=
  let d := match cli.browser_type with
    | some s => if s.isEmpty then d else pySet d "type" (PyVal.str s)
    | none => d
  let d := if cli.headed then pySet d "headless" (PyVal.bool false) else d
  let d := match cli.headless with
    | some b => pySet d "headless" (PyVal.bool b)
    | none => d
  match cli.slow_mo with
  | some n => pySet d "slow_mo" (PyVal.int n)
  | none => d

/-- The resolved `BrowserConfig` dataclass of `browser_factory.py` (fields hold
the raw values the Python code stores; the dataclass does not coerce). -/
structure BrowserConfigR where
  browser_type : PyVal
  headless : PyVal
  slow_mo : PyVal
  timeout : PyVal
  viewport_width : PyVal
  viewport_height : PyVal
  screenshot_on_failure : PyVal
  video_on_failure : PyVal
  trace_on_failure : PyVal
  args : PyVal

/-- `BrowserConfig.from_dict`. `none` models an escaping exception
(`.get` on a non-dict `viewport` or browser-specific section). -/
def BrowserConfigR.fromDict (config : PyDict) : Option BrowserConfigR :=
  (match pyGet config "viewport" with
    | some (PyVal.dict v) => some v
    | some _ => none
    | none => some ([] : PyDict)).bind fun viewport =>
  let browser_type := pyOrVal (pyGet config "type") (pyGetD config "default" (PyVal.str "chromium"))
  (match browser_type with
    | PyVal.str bt =>
      match pyGet config bt with
      | some (PyVal.dict sub) => some sub
      | some _ => none
      | none => some ([] : PyDict)
    | _ => some ([] : PyDict)).bind fun browser_specific =>
  let args := pyGetD browser_specific "args" (PyVal.list [])
  some {
    browser_type := browser_type
    headless := pyGetD config "headless" (PyVal.bool true)
    slow_mo := pyGetD config "slow_mo" (PyVal.int 0)
    timeout := pyGetD config "timeout" (PyVal.int 30000)
    viewport_width := pyGetD viewport "width" (PyVal.int 1920)
    viewport_height := pyGetD viewport "height" (PyVal.int 1080)
    screenshot_on_failure := pyGetD config "screenshot_on_failure" (PyVal.bool true)
    video_on_failure := pyGetD config "video_on_failure" (PyVal.bool false)
    trace_on_failure := pyGetD config "trace_on_failure" (PyVal.bool true)
    args := args }

/-- `BrowserFactory._build_config`: copy the file config, apply env overrides,
apply CLI overrides, then build the dataclass. -/
def buildConfigB (config : PyDict) (env : BrowserEnv) (cli : BrowserCliOverrides) :
    Option BrowserConfigR :=
  (applyEnvOverridesB config env).bind fun merged =>
  BrowserConfigR.fromDict (applyCliOverridesB merged cli)

/-! ## MobileFactory configuration pipeline (src/adapters/mobile/mobile_factory.py) -/

/-- The `mobile` section of `core_config` (absent section ≡ all fields absent,
matching `core_config.get("mobile", {})`). -/
structure MobileCoreSection where
  appium_server : Option String
  automation_name : Option String
  new_command_timeout : Option Int
  no_reset : Option Bool
  full_reset : Option Bool

/-- The per-platform section of `data_config["mobile_app"]`. -/
structure MobilePlatformData where
  platform : Option String
  device_name : Option String
  platform_version : Option String
  app_path : Option String
  app_package : Option String
  app_activity : Option String
  bundle_id : Option String
  udid : Option String

/-- The parts of `core_config` read by `MobileConfig.from_dict`. -/
structure MobileCoreConfig where
  mobile : MobileCoreSection
  browser_screenshot_on_failure : Option Bool

/-- The parts of `data_config` read by `MobileConfig.from_dict`. -/
structure MobileDataConfig where
  android : MobilePlatformData
  ios : MobilePlatformData
  implicit_wait : Option Int

/-- The `MobileConfig` dataclass. -/
structure MobileConfig where
  platform : String
  appium_server : String
  android_device_name : String
  android_platform_version : String
  android_app_path : Option String
  android_app_package : Option String
  android_app_activity : Option String
  android_automation_name : String
  ios_device_name : String
  ios_platform_version : String
  ios_app_path : Option String
  ios_bundle_id : Option String
  ios_udid : Option String
  ios_automation_name : String
  new_command_timeout : Int
  implicit_wait : Int
  no_reset : Bool
  full_reset : Bool
  screenshot_on_failure : Bool

/-- `MobileConfig.from_dict`. -/
def MobileConfig.fromDict (core : MobileCoreConfig) (data : MobileDataConfig) : MobileConfig :=
  { platform := data.android.platform.getD "android"
    appium_server := core.mobile.appium_server.getD "http://localhost:4723"
    android_device_name := data.android.device_name.getD "emulator-5554"
    android_platform_version := data.android.platform_version.getD "13"
    android_app_path := data.android.app_path
    android_app_package := data.android.app_package
    android_app_activity := data.android.app_activity
    android_automation_name := core.mobile.automation_name.getD "UiAutomator2"
    ios_device_name := data.ios.device_name.getD "iPhone 14"
    ios_platform_version := data.ios.platform_version.getD "16.0"
    ios_app_path := data.ios.app_path
    ios_bundle_id := data.ios.bundle_id
    ios_udid := data.ios.udid
    ios_automation_name := "XCUITest"
    new_command_timeout := core.mobile.new_command_timeout.getD 300
    implicit_wait := data.implicit_wait.getD 10
    no_reset := core.mobile.no_reset.getD false
    full_reset := core.mobile.full_reset.getD false
    screenshot_on_failure := core.browser_screenshot_on_failure.getD true }

/-- The recognized mobile environment variables. -/
structure MobileEnv where
  MOBILE_PLATFORM : Option String
  MOBILE_APPIUM_SERVER : Option String
  MOBILE_DEVICE_NAME : Option String
  MOBILE_PLATFORM_VERSION : Option String
  MOBILE_APP_PATH : Option String
  MOBILE_UDID : Option String
  MOBILE_NO_RESET : Option String
  MOBILE_FULL_RESET : Option String

/-- All mobile environment variables unset. -/
def MobileEnv.empty : MobileEnv :=
  ⟨none, none, none, none, none, none, none, none⟩

/-- CLI overrides consumed by `MobileFactory._apply_cli_overrides`. -/
structure MobileCliOverrides where
  platform : Option String
  device_name : Option String
  app_path : Option String
  udid : Option String
  no_reset : Option Bool

/-- No mobile CLI overrides. -/
def MobileCliOverrides.empty : MobileCliOverrides :=
  ⟨none, none, none, none, none⟩

/-- `MobileFactory._apply_env_overrides` (mutates the config field by field,
each guarded by `if os.environ.get(VAR):`). -/
def applyEnvOverridesM (config : MobileConfig) (env : MobileEnv) : MobileConfig :=
  let config := match truthyOpt env.MOBILE_PLATFORM with
    | some s => { config with platform := pyLower s }
    | none => config
  let config := match truthyOpt env.MOBILE_APPIUM_SERVER with
    | some s => { config with appium_server := s }
    | none => config
  let config := match truthyOpt env.MOBILE_DEVICE_NAME with
    | some s => { config with android_device_name := s, ios_device_name := s }
    | none => config
  let config := match truthyOpt env.MOBILE_PLATFORM_VERSION with
    | some s => { config with android_platform_version := s, ios_platform_version := s }
    | none => config
  let config := match truthyOpt env.MOBILE_APP_PATH with
    | some s => { config with android_app_path := some s, ios_app_path := some s }
    | none => config
  let config := match truthyOpt env.MOBILE_UDID with
    | some s => { config with ios_udid := some s }
    | none => config
  let config := match truthyOpt env.MOBILE_NO_RESET with
    | some s => { config with no_reset := pyLower s == "true" }
    | none => config
  match truthyOpt env.MOBILE_FULL_RESET with
  | some s => { config with full_reset := pyLower s == "true" }
  | none => config

/-- `MobileFactory._apply_cli_overrides`. -/
def applyCliOverridesM (config : MobileConfig) (cli : MobileCliOverrides) : MobileConfig :=
  let config := match truthyOpt cli.platform with
    | some s => { config with platform := pyLower s }
    | none => config
  let config := match truthyOpt cli.device_name with
    | some s => { config with android_device_name := s, ios_device_name := s }
    | none => config
  let config := match truthyOpt cli.app_path with
    | some s => { config with android_app_path := some s, ios_app_path := some s }
    | none => config
  let config := match truthyOpt cli.udid with
    | some s => { config with ios_udid := some s }
    | none => config
  match cli.no_reset with
  | some b => { config with no_reset := b }
  | none => config

/-- `MobileFactory._build_config`: base config from the files, then env
overrides, then CLI overrides. -/
def buildConfigM (core : MobileCoreConfig) (data : MobileDataConfig)
    (env : MobileEnv) (cli : MobileCliOverrides) : MobileConfig :=
  applyCliOverridesM (applyEnvOverridesM (MobileConfig.fromDict core data) env) cli

/-! ## Factory lifecycle (launch/create memoization, close) -/

/-- The mutable resource-tracking fields of `BrowserFactory`. Handles are
identified by numeric ids; `nextId` is the supply of fresh handles from the
engine; `launchCalls` counts calls to `browser_launcher.launch`. -/
structure BrowserFactoryState where
  playwright : Option Nat
  browser : Option Nat
  contexts : List Nat
  pages : List Nat
  nextId : Nat
  launchCalls : Nat
deriving Repr, DecidableEq

/-- The body of `launch_browser` past the memoization check: start Playwright,
launch a fresh browser, memoize it. -/
def launchFresh (st : BrowserFactoryState) : Nat × BrowserFactoryState :=
  let pw := st.nextId
  let b := st.nextId + 1
  (b, { st with playwright := some pw, browser := some b,
                nextId := st.nextId + 2, launchCalls := st.launchCalls + 1 })

/-- `BrowserFactory.launch_browser`: return the memoized browser when it is
still connected, otherwise construct a new one. `connected` is the engine's
`Browser.is_connected` oracle. -/
def launch_browser (connected : Nat → Bool) (st : BrowserFactoryState) :
    Nat × BrowserFactoryState :=
  match st.browser with
  | some b => if connected b then (b, st) else launchFresh st
  | none => launchFresh st

/-- `launch_browser` called `n` times in sequence: the list of returned
handles and the final state. -/
def launchIter (connected : Nat → Bool) : Nat → BrowserFactoryState →
    List Nat × BrowserFactoryState
  | 0, st => ([], st)
  | n + 1, st =>
    let (h, st') := launch_browser connected st
    let (hs, st'') := launchIter connected n st'
    (h :: hs, st'')

/-- The mutable fields of `MobileFactory`; `createCalls` counts calls to
`webdriver.Remote`. -/
structure MobileFactoryState where
  driver : Option Nat
  nextId : Nat
  createCalls : Nat
deriving Repr, DecidableEq

/-- `MobileFactory.create_driver`: return the memoized driver if present,
otherwise construct and memoize a new one. -/
def create_driver (st : MobileFactoryState) : Nat × MobileFactoryState :=
  match st.driver with
  | some d => (d, st)
  | none =>
    (st.nextId, { driver := some st.nextId, nextId := st.nextId + 1,
                  createCalls := st.createCalls + 1 })

/-- `create_driver` called `n` times in sequence. -/
def createDriverIter : Nat → MobileFactoryState → List Nat × MobileFactoryState
  | 0, st => ([], st)
  | n + 1, st =>
    let (h, st') := create_driver st
    let (hs, st'') := createDriverIter n st'
    (h :: hs, st'')

/-- Oracle deciding which underlying release calls raise. -/
structure CloseOracle where
  pageFails : Nat → Bool
  contextFails : Nat → Bool
  browserFails : Nat → Bool
  playwrightFails : Nat → Bool
  driverFails : Nat → Bool

/-- `page.close()`. -/
def pageClosePrim (o : CloseOracle) (p : Nat) : Except PyErr Unit :=
  if o.pageFails p then Except.error PyErr.err else Except.ok ()

/-- `context.close()`. -/
def contextClosePrim (o : CloseOracle) (c : Nat) : Except PyErr Unit :=
  if o.contextFails c then Except.error PyErr.err else Except.ok ()

/-- `browser.close()`. -/
def browserClosePrim (o : CloseOracle) (b : Nat) : Except PyErr Unit :=
  if o.browserFails b then Except.error PyErr.err else Except.ok ()

/-- `playwright.stop()`. -/
def playwrightStopPrim (o : CloseOracle) (pw : Nat) : Except PyErr Unit :=
  if o.playwrightFails pw then Except.error PyErr.err else Except.ok ()

/-- `driver.quit()`. -/
def driverQuitPrim (o : CloseOracle) (d : Nat) : Except PyErr Unit :=
  if o.driverFails d then Except.error PyErr.err else Except.ok ()

/-- `try: ... except Exception: pass` around a single release call. -/
def pyTryPass (e : Except PyErr Unit) : Except PyErr Unit :=
  match e with
  | Except.ok _ => Except.ok ()
  | Except.error _ => Except.ok ()

/-- One attempted release, in the order `close` performs them. -/
inductive ReleaseEvent where
  | closePage (id : Nat)
  | closeContext (id : Nat)
  | closeBrowser (id : Nat)
  | stopPlaywright (id : Nat)
deriving Repr, DecidableEq

/-- `for page in self._pages[:]: try: page.close() except Exception: pass`.
Returns the releases attempted; an uncaught exception would abort the loop. -/
def closePagesLoop (o : CloseOracle) : List Nat → Except PyErr (List ReleaseEvent)
  | [] => Except.ok []
  | p :: ps => do
    let _ ← pyTryPass (pageClosePrim o p)
    let evs ← closePagesLoop o ps
    pure (ReleaseEvent.closePage p :: evs)

/-- `for context in self._contexts[:]: try: context.close() except Exception: pass`. -/
def closeContextsLoop (o : CloseOracle) : List Nat → Except PyErr (List ReleaseEvent)
  | [] => Except.ok []
  | c :: cs => do
    let _ ← pyTryPass (contextClosePrim o c)
    let evs ← closeContextsLoop o cs
    pure (ReleaseEvent.closeContext c :: evs)

/-- `BrowserFactory.close`: pages, then contexts, then the browser, then the
Playwright process, each release independently guarded, tracked collections
cleared. The returned trace lists the attempted releases in order. -/
def BrowserFactoryState.close (o : CloseOracle) (st : BrowserFactoryState) :
    Except PyErr (BrowserFactoryState × List ReleaseEvent) := do
  let ev1 ← closePagesLoop o st.pages
  let st := { st with pages := [] }
  let ev2 ← closeContextsLoop o st.contexts
  let st := { st with contexts := [] }
  let (ev3, st) ← (match st.browser with
    | some b => do
      let _ ← pyTryPass (browserClosePrim o b)
      pure ([ReleaseEvent.closeBrowser b], { st with browser := none })
    | none => pure (([] : List ReleaseEvent), st))
  let (ev4, st) ← (match st.playwright with
    | some pw => do
      let _ ← pyTryPass (playwrightStopPrim o pw)
      pure ([ReleaseEvent.stopPlaywright pw], { st with playwright := none })
    | none => pure (([] : List ReleaseEvent), st))
  pure (st, ev1 ++ ev2 ++ ev3 ++ ev4)

/-- `BrowserFactory.close_page`: remove the page from the tracked list if
present, then close it; the whole body is guarded by `try/except`. -/
def BrowserFactoryState.close_page (o : CloseOracle) (p : Nat)
    (st : BrowserFactoryState) : Except PyErr BrowserFactoryState :=
  let st' := if p ∈ st.pages then { st with pages := st.pages.erase p } else st
  match pyTryPass (pageClosePrim o p) with
  | Except.ok _ => Except.ok st'
  | Except.error e => Except.error e

/-- `MobileFactory.close`: `try: driver.quit() except: log; finally: driver = None`. -/
def MobileFactoryState.close (o : CloseOracle) (st : MobileFactoryState) :
    Except PyErr MobileFactoryState :=
  match st.driver with
  | some d =>
    match pyTryPass (driverQuitPrim o d) with
    | Except.ok _ => Except.ok { st with driver := none }
    | Except.error e => Except.error e
  | none => Except.ok st

/-! ## Failure-artifact collection (src/conftest.py) -/

/-- An artifact attached to the report via `allure.attach`. -/
inductive Artifact where
  | screenshotA (data : String)
  | urlA (s : String)
  | sourceA (s : String)
  | traceA (s : String)
  | videoA (s : String)
  | mScreenshotA (data : String)
  | mSourceA (s : String)
  | deviceInfoA (s : String)
deriving Repr, DecidableEq

/-- A browser context handle as seen by the artifact collector:
`context.tracing.stop(path)` followed by reading the trace file back. -/
structure ContextOps where
  traceExport : Except PyErr String

/-- A Playwright video object: `video.path()` (the empty string models a
falsy path) and reading the recorded file. -/
structure VideoOps where
  path : Except PyErr String
  data : Except PyErr String

/-- A Playwright page handle as seen by the artifact collector. -/
structure PageOps where
  screenshot : Except PyErr String
  url : Except PyErr String
  content : Except PyErr String
  video : Option VideoOps
  context : Option ContextOps

/-- An Appium driver handle as seen by the artifact collector;
`capabilities` stands for the device-info JSON payload. -/
structure DriverOps where
  screenshot : Except PyErr String
  page_source : Except PyErr String
  capabilities : Except PyErr String

/-- The `ui_actions` fixture object; `page` is `none` when `hasattr` fails. -/
structure UiActionsObj where
  page : Option PageOps

/-- The `mobile_actions` fixture object. -/
structure MobileActionsObj where
  driver : Option DriverOps

/-- The well-known fixture slots of `item.funcargs` probed by the hooks. -/
structure FuncArgs where
  page : Option PageOps
  ui_actions : Option UiActionsObj
  context : Option ContextOps
  appium_driver : Option DriverOps
  mobile_actions : Option MobileActionsObj

/-- `item.funcargs` with none of the well-known slots present. -/
def FuncArgs.emptyArgs : FuncArgs :=
  ⟨none, none, none, none, none⟩

/-- Page resolution in `_attach_playwright_artifacts` (lines 509-518). -/
def resolvePage (fa : FuncArgs) : Option PageOps :=
  match fa.page with
  | some p => some p
  | none =>
    match fa.ui_actions with
    | some ua => ua.page
    | none => none

/-- Context resolution in `_attach_playwright_artifacts` (lines 520-524). -/
def resolveContext (fa : FuncArgs) (page : Option PageOps) : Option ContextOps :=
  match fa.context with
  | some c => some c
  | none =>
    match page with
    | some p => p.context
    | none => none

/-- `try: capture-and-attach except Exception as e: logger.warning(...)`. -/
def tryCapture (step : Except PyErr (List Artifact)) : Except PyErr (List Artifact) :=
  match step with
  | Except.ok a => Except.ok a
  | Except.error _ => Except.ok []

/-- `_attach_playwright_artifacts`: resolve the page and context, return early
when no page is found, then run the five independently guarded captures. -/
def attachPlaywrightE (fa : FuncArgs) : Except PyErr (List Artifact) := do
  let page := resolvePage fa
  let context := resolveContext fa page
  match page with
  | none => pure []
  | some p => do
    let a1 ← tryCapture (do
      let d ← p.screenshot
      pure [Artifact.screenshotA d])
    let a2 ← tryCapture (do
      let u ← p.url
      pure [Artifact.urlA u])
    let a3 ← tryCapture (do
      let s ← p.content
      pure [Artifact.sourceA s])
    let a4 ← (match context with
      | some c => tryCapture (do
          let t ← c.traceExport
          pure [Artifact.traceA t])
      | none => pure ([] : List Artifact))
    let a5 ← tryCapture (do
      match p.video with
      | some v => do
        let path ← v.path
        if path.isEmpty then pure ([] : List Artifact)
        else do
          let d ← v.data
          pure [Artifact.videoA d]
      | none => pure ([] : List Artifact))
    pure (a1 ++ a2 ++ a3 ++ a4 ++ a5)

/-- Driver resolution in `_attach_appium_artifacts` (lines 606-617). -/
def resolveDriver (fa : FuncArgs) : Option DriverOps :=
  match fa.appium_driver with
  | some d => some d
  | none =>
    match fa.mobile_actions with
    | some ma => ma.driver
    | none => none

/-- `_attach_appium_artifacts`: return early when no driver is found, then run
the three independently guarded captures. -/
def attachAppiumE (fa : FuncArgs) : Except PyErr (List Artifact) := do
  match resolveDriver fa with
  | none => pure []
  | some dr => do
    let a1 ← tryCapture (do
      let d ← dr.screenshot
      pure [Artifact.mScreenshotA d])
    let a2 ← tryCapture (do
      let s ← dr.page_source
      pure [Artifact.mSourceA s])
    let a3 ← tryCapture (do
      let c ← dr.capabilities
      pure [Artifact.deviceInfoA c])
    pure (a1 ++ a2 ++ a3)

/-- The fields of the pytest report the hook inspects. -/
structure ReportInfo where
  whenPhase : String
  failed : Bool

/-- `pytest_runtest_makereport` (post-yield part): on a failed call-phase
report, and only when `settings.core.browser.screenshot_on_failure` holds and
the item has funcargs, attach Playwright artifacts and then Appium artifacts. -/
def pytest_runtest_makereport (screenshot_on_failure : Bool) (hasFuncargs : Bool)
    (rep : ReportInfo) (fa : FuncArgs) : Except PyErr (List Artifact) :=
  if rep.whenPhase == "call" && rep.failed then
    if screenshot_on_failure && hasFuncargs then do
      let a ← attachPlaywrightE fa
      let b ← attachAppiumE fa
      pure (a ++ b)
    else Except.ok []
  else Except.ok []

/-! ## Mobile locator parsing (src/adapters/mobile/mobile_actions_impl.py) -/

/-- The Appium locator strategies used by `strategy_map`. -/
inductive AppiumBy where
  | ID
  | XPATH
  | ACCESSIBILITY_ID
  | CLASS_NAME
  | NAME
  | CSS_SELECTOR
  | ANDROID_UIAUTOMATOR
  | IOS_PREDICATE
  | IOS_CLASS_CHAIN
deriving Repr, DecidableEq

/-- `strategy_map` in `_get_locator_strategy`. -/
def strategy_map : List (String × AppiumBy) :=
  [("id", AppiumBy.ID),
   ("xpath", AppiumBy.XPATH),
   ("accessibility_id", AppiumBy.ACCESSIBILITY_ID),
   ("class", AppiumBy.CLASS_NAME),
   ("name", AppiumBy.NAME),
   ("css", AppiumBy.CSS_SELECTOR),
   ("android_uiautomator", AppiumBy.ANDROID_UIAUTOMATOR),
   ("ios_predicate", AppiumBy.IOS_PREDICATE),
   ("ios_class_chain", AppiumBy.IOS_CLASS_CHAIN)]

/-- Python `s.split(sep, 1)`: `none` when `sep` does not occur, otherwise the
parts before and after the first occurrence. -/
def pySplitOnce (sep : Char) : List Char → Option (List Char × List Char)
  | [] => none
  | c :: cs =>
    if c = sep then some ([], cs)
    else
      match pySplitOnce sep cs with
      | some (a, b) => some (c :: a, b)
      | none => none

/-- Python `s.strip()`. -/
def pyStrip (l : List Char) : List Char :=
  ((l.dropWhile Char.isWhitespace).reverse.dropWhile Char.isWhitespace).reverse

/-- `AppiumMobileActions._get_locator_strategy` over the locator's characters:
no `=` defaults to accessibility id; otherwise split at the first `=`,
lowercase and strip the strategy, and fall back to accessibility id when the
strategy is not recognized. -/
def get_locator_strategy (locator : List Char) : AppiumBy × List Char :=
  match pySplitOnce '=' locator with
  | none => (AppiumBy.ACCESSIBILITY_ID, locator)
  | some (strategy, value) =>
    let s := pyStrip (strategy.map Char.toLower)
    ((strategy_map.lookup (String.mk s)).getD AppiumBy.ACCESSIBILITY_ID, value)

/-- Specification of `BrowserFactory.close`'s release order: all tracked pages
first, then all tracked contexts, then the primary browser, then the
Playwright engine process. -/
def closeTrace (st : BrowserFactoryState) : List ReleaseEvent :=
  st.pages.map ReleaseEvent.closePage ++
  st.contexts.map ReleaseEvent.closeContext ++
  (match st.browser with
   | some b => [ReleaseEvent.closeBrowser b]
   | none => []) ++
  (match st.playwright with
   | some pw => [ReleaseEvent.stopPlaywright pw]
   | none => [])

/-- The `k2` leaf of the nested dict stored at key `k1` (as the file layer
supplies `viewport.width` / `viewport.height`); `none` when `k1` is absent or
not a dict. -/
def pyGetLeaf (d : PyDict) (k1 k2 : String) : Option PyVal :=
  match pyGet d k1 with
  | some (PyVal.dict sub) => pyGet sub k2
  | _ => none

/-- Specification of an override layer's value for a string-typed key: the
layer defines the key when its variable is set and truthy, and supplies the
string unchanged (`str` converter). -/
def strLayer (v : Option String) : Option PyVal :=
  (truthyOpt v).map PyVal.str

/-- Specification of an override layer's value for a boolean-typed key: the
fixed coercion compares the lowercased string with "true". -/
def boolLayer (v : Option String) : Option PyVal :=
  (truthyOpt v).map fun s => PyVal.bool (pyLower s == "true")

/-- Specification of an override layer's value for an integer-typed key:
defined when the variable is truthy and parses as an int. -/
def intLayer (v : Option String) : Option PyVal :=
  (truthyOpt v).bind fun s => (pyInt s).map PyVal.int

/-- Specification of the CLI layer's value for the `headless` key: an explicit
`headless` override wins, otherwise `headed` supplies `False`, otherwise the
CLI layer does not define the key. -/
def cliHeadlessLayer (cli : BrowserCliOverrides) : Option PyVal :=
  match cli.headless with
  | some b => some (PyVal.bool b)
  | none => if cli.headed then some (PyVal.bool false) else none

/-! ## Basic dictionary lemmas -/

theorem pyGet_pySet_same (d : PyDict) (k : String) (v : PyVal) :
    pyGet (pySet d k v) k = some v := by
  induction d with
  | nil => simp [pySet, pyGet]
  | cons hd tl ih =>
    obtain ⟨k', v'⟩ := hd
    by_cases h : k' = k <;> simp [pySet, pyGet, h, ih]

theorem pyGet_pySet_ne (d : PyDict) (k k' : String) (v : PyVal) (h : k' ≠ k) :
    pyGet (pySet d k v) k' = pyGet d k' := by
  have hk : k ≠ k' := fun hh => h hh.symm
  induction d with
  | nil => simp [pySet, pyGet, hk]
  | cons hd tl ih =>
    obtain ⟨k₀, v₀⟩ := hd
    by_cases h0 : k₀ = k
    · subst h0
      simp [pySet, pyGet, hk]
    · simp [pySet, pyGet, h0, ih]

theorem envStepStr_get_ne (d : PyDict) (k : String) (v : Option String)
    (k' : String) (h : k' ≠ k) :
    pyGet (envStepStr d k v) k' = pyGet d k' := by
  cases v with
  | none => rfl
  | some s =>
    by_cases hs : s.isEmpty <;> simp [envStepStr, hs, pyGet_pySet_ne _ _ _ _ h]

theorem envStepStr_get_same (d : PyDict) (k : String) (v : Option String) :
    pyGet (envStepStr d k v) k =
      match truthyOpt v with
      | some s => some (PyVal.str s)
      | none => pyGet d k := by
  cases v with
  | none => rfl
  | some s =>
    by_cases hs : s.isEmpty <;> simp [envStepStr, truthyOpt, hs, pyGet_pySet_same]

theorem envStepBool_get_ne (d : PyDict) (k : String) (v : Option String)
    (k' : String) (h : k' ≠ k) :
    pyGet (envStepBool d k v) k' = pyGet d k' := by
  cases v with
  | none => rfl
  | some s =>
    by_cases hs : s.isEmpty <;> simp [envStepBool, hs, pyGet_pySet_ne _ _ _ _ h]

theorem envStepInt_some_get_ne (d d' : PyDict) (k : String) (v : Option String)
    (k' : String) (h : envStepInt d k v = some d') (hne : k' ≠ k) :
    pyGet d' k' = pyGet d k' := by
  cases v with
  | none =>
    simp [envStepInt] at h
    subst h; rfl
  | some s =>
    by_cases hs : s.isEmpty
    · simp [envStepInt, hs] at h
      subst h; rfl
    · simp [envStepInt, hs] at h
      obtain ⟨n, hn, hd⟩ := h
      subst hd
      exact pyGet_pySet_ne _ _ _ _ hne

theorem pySetNested_some_get_ne (d d' : PyDict) (k1 k2 k' : String) (v : PyVal)
    (h : pySetNested d k1 k2 v = some d') (hne : k' ≠ k1) :
    pyGet d' k' = pyGet d k' := by
  unfold pySetNested at h
  cases hg : pyGet d k1 with
  | none =>
    rw [hg] at h
    simp at h
    subst h
    exact pyGet_pySet_ne _ _ _ _ hne
  | some w =>
    rw [hg] at h
    cases w with
    | dict sub =>
      simp only [Option.some.injEq] at h
      subst h
      exact pyGet_pySet_ne _ _ _ _ hne
    | str s => exact absurd h (by simp)
    | int n => exact absurd h (by simp)
    | bool b => exact absurd h (by simp)
    | list xs => exact absurd h (by simp)

theorem envStepNestedInt_some_get_ne (d d' : PyDict) (k1 k2 : String)
    (v : Option String) (k' : String)
    (h : envStepNestedInt d k1 k2 v = some d') (hne : k' ≠ k1) :
    pyGet d' k' = pyGet d k' := by
  cases v with
  | none =>
    simp [envStepNestedInt] at h
    subst h; rfl
  | some s =>
    by_cases hs : s.isEmpty
    · simp [envStepNestedInt, hs] at h
      subst h; rfl
    · simp [envStepNestedInt, hs, Option.bind_eq_some] at h
      obtain ⟨n, hn, hd⟩ := h
      exact pySetNested_some_get_ne _ _ _ _ _ _ hd hne

theorem applyEnvB_get_type (d : PyDict) (env : BrowserEnv) (d' : PyDict)
    (h : applyEnvOverridesB d env = some d') :
    pyGet d' "type" =
      match truthyOpt env.BROWSER_TYPE with
      | some s => some (PyVal.str s)
      | none => pyGet d "type" := by
  unfold applyEnvOverridesB at h
  rw [Option.bind_eq_some] at h
  obtain ⟨d1, h1, h⟩ := h
  rw [Option.bind_eq_some] at h
  obtain ⟨d2, h2, h⟩ := h
  rw [Option.bind_eq_some] at h
  obtain ⟨d3, h3, h4⟩ := h
  have g4 := envStepNestedInt_some_get_ne _ _ _ _ _ "type" h4 (by decide)
  have g3 := envStepNestedInt_some_get_ne _ _ _ _ _ "type" h3 (by decide)
  have g2 := envStepInt_some_get_ne _ _ _ _ "type" h2 (by decide)
  have g1 := envStepInt_some_get_ne _ _ _ _ "type" h1 (by decide)
  rw [g4, g3, g2, g1, envStepBool_get_ne _ _ _ _ (by decide), envStepStr_get_same]

theorem applyCliB_get_type (d : PyDict) (cli : BrowserCliOverrides) :
    pyGet (applyCliOverridesB d cli) "type" =
      match truthyOpt cli.browser_type with
      | some s => some (PyVal.str s)
      | none => pyGet d "type" := by
  unfold applyCliOverridesB
  cases cli.browser_type with
  | none =>
    cases cli.headed <;> cases cli.headless <;> cases cli.slow_mo <;>
      simp [truthyOpt, pyGet_pySet_ne _ _ _ _ (by decide : ("type" : String) ≠ "headless"),
        pyGet_pySet_ne _ _ _ _ (by decide : ("type" : String) ≠ "slow_mo")]
  | some s =>
    by_cases hs : s.isEmpty <;>
      cases cli.headed <;> cases cli.headless <;> cases cli.slow_mo <;>
      simp [truthyOpt, hs,
        pyGet_pySet_ne _ _ _ _ (by decide : ("type" : String) ≠ "headless"),
        pyGet_pySet_ne _ _ _ _ (by decide : ("type" : String) ≠ "slow_mo"),
        pyGet_pySet_same]

/-! ## Mobile platform resolution lemmas -/

theorem applyEnvOverridesM_platform (config : MobileConfig) (env : MobileEnv) :
    (applyEnvOverridesM config env).platform =
      match truthyOpt env.MOBILE_PLATFORM with
      | some s => pyLower s
      | none => config.platform := by
  unfold applyEnvOverridesM
  cases truthyOpt env.MOBILE_PLATFORM <;>
  cases truthyOpt env.MOBILE_APPIUM_SERVER <;>
  cases truthyOpt env.MOBILE_DEVICE_NAME <;>
  cases truthyOpt env.MOBILE_PLATFORM_VERSION <;>
  cases truthyOpt env.MOBILE_APP_PATH <;>
  cases truthyOpt env.MOBILE_UDID <;>
  cases truthyOpt env.MOBILE_NO_RESET <;>
  cases truthyOpt env.MOBILE_FULL_RESET <;>
  rfl

theorem applyCliOverridesM_platform (config : MobileConfig) (cli : MobileCliOverrides) :
    (applyCliOverridesM config cli).platform =
      match truthyOpt cli.platform with
      | some s => pyLower s
      | none => config.platform := by
  unfold applyCliOverridesM
  cases truthyOpt cli.platform <;>
  cases truthyOpt cli.device_name <;>
  cases truthyOpt cli.app_path <;>
  cases truthyOpt cli.udid <;>
  cases cli.no_reset <;>
  rfl

theorem buildConfigM_platform (core : MobileCoreConfig) (data : MobileDataConfig)
    (env : MobileEnv) (cli : MobileCliOverrides) :
    (buildConfigM core data env cli).platform =
      (((truthyOpt cli.platform).map pyLower) <|>
       ((truthyOpt env.MOBILE_PLATFORM).map pyLower) <|>
       data.android.platform).getD "android" := by
  unfold buildConfigM
  rw [applyCliOverridesM_platform, applyEnvOverridesM_platform]
  cases truthyOpt cli.platform <;> cases truthyOpt env.MOBILE_PLATFORM <;>
    simp [MobileConfig.fromDict]

/-! ## Claim theorems -/

/-- C8: overriding the nested key `viewport.width` merges at the leaf — the
sibling leaf `viewport.height` from the file config is preserved; end to end,
file `viewport={height:700}` with env `BROWSER_VIEWPORT_WIDTH=1500` resolves
to width 1500 and height 700. -/
theorem c8_nested_leaf_merge :
    (∀ (d : PyDict) (vp : PyDict) (s : String) (n : Int),
      pyGet d "viewport" = some (PyVal.dict vp) →
      s.isEmpty = false → pyInt s = some n →
      envStepNestedInt d "viewport" "width" (some s)
        = some (pySet d "viewport" (PyVal.dict (pySet vp "width" (PyVal.int n))))
      ∧ ∀ hv : PyVal, pyGet vp "height" = some hv →
          pyGet (pySet vp "width" (PyVal.int n)) "height" = some hv)
    ∧ (buildConfigB [("viewport", PyVal.dict [("height", PyVal.int 700)])]
        { BrowserEnv.empty with BROWSER_VIEWPORT_WIDTH := some "1500" }
        BrowserCliOverrides.empty).map (fun r => (r.viewport_width, r.viewport_height))
      = some (PyVal.int 1500, PyVal.int 700) := by
  refine ⟨fun d vp s n hvp hs hn => ⟨?_, fun hv hh => ?_⟩, ?_⟩
  · simp [envStepNestedInt, hs, hn, Option.bind, pySetNested, hvp]
  · rw [pyGet_pySet_ne _ _ _ _ (by decide : ("height" : String) ≠ "width"), hh]
  · rfl

/-- Witness for C8: the general leaf-merge fact applied at the concrete file
config of the scenario. -/
theorem c8_nested_leaf_merge_witness :
    (envStepNestedInt [("viewport", PyVal.dict [("height", PyVal.int 700)])]
        "viewport" "width" (some "1500")
      = some (pySet [("viewport", PyVal.dict [("height", PyVal.int 700)])] "viewport"
          (PyVal.dict (pySet [("height", PyVal.int 700)] "width" (PyVal.int 1500))))
      ∧ pyGet (pySet [("height", PyVal.int 700)] "width" (PyVal.int 1500)) "height"
        = some (PyVal.int 700)) :=
  ⟨(c8_nested_leaf_merge.1 [("viewport", PyVal.dict [("height", PyVal.int 700)])]
      [("height", PyVal.int 700)] "1500" 1500 rfl rfl (by decide)).1,
   (c8_nested_leaf_merge.1 [("viewport", PyVal.dict [("height", PyVal.int 700)])]
      [("height", PyVal.int 700)] "1500" 1500 rfl rfl (by decide)).2
     (PyVal.int 700) rfl⟩

/-! ## Lifecycle lemmas -/

theorem launch_browser_browser_eq (connected : Nat → Bool) (st : BrowserFactoryState)
    (h : Nat) (st' : BrowserFactoryState)
    (heq : launch_browser connected st = (h, st')) :
    st'.browser = some h := by
  cases hb : st.browser with
  | none =>
    simp [launch_browser, hb, launchFresh] at heq
    obtain ⟨h1, h2⟩ := heq
    subst h1
    subst h2
    rfl
  | some b =>
    by_cases hc : connected b
    · simp [launch_browser, hb, hc] at heq
      obtain ⟨h1, h2⟩ := heq
      subst h1
      subst h2
      exact hb
    · simp [launch_browser, hb, hc, launchFresh] at heq
      obtain ⟨h1, h2⟩ := heq
      subst h1
      subst h2
      rfl

theorem launch_browser_stable (connected : Nat → Bool) (st : BrowserFactoryState)
    (h : Nat) (hb : st.browser = some h) (hc : connected h = true) :
    launch_browser connected st = (h, st) := by
  simp [launch_browser, hb, hc]

theorem launchIter_stable (connected : Nat → Bool) (st : BrowserFactoryState)
    (h : Nat) (hb : st.browser = some h) (hc : connected h = true) :
    ∀ n : Nat, launchIter connected n st = (List.replicate n h, st) := by
  intro n
  induction n with
  | zero => rfl
  | succ m ih =>
    simp [launchIter, launch_browser_stable connected st h hb hc, ih, List.replicate_succ]

theorem createDriverIter_stable (st : MobileFactoryState) (d : Nat)
    (hd : st.driver = some d) :
    ∀ n : Nat, createDriverIter n st = (List.replicate n d, st) := by
  intro n
  have hstep : create_driver st = (d, st) := by
    simp [create_driver, hd]
  induction n with
  | zero => rfl
  | succ m ih =>
    simp [createDriverIter, hstep, ih, List.replicate_succ]

/-- C2: starting from a factory with no memoized handle, the first create call
constructs the underlying resource exactly once, and while that handle stays
connected every further call returns the very same handle without touching the
state (so N calls, N ≥ 1, yield one construction and one shared instance) —
for `BrowserFactory.launch_browser` and `MobileFactory.create_driver`. -/
theorem c2_create_memoized :
    (∀ (connected : Nat → Bool) (st0 : BrowserFactoryState),
      st0.browser = none →
      ∀ (h : Nat) (st1 : BrowserFactoryState),
        launch_browser connected st0 = (h, st1) →
        connected h = true →
        st1.launchCalls = st0.launchCalls + 1 ∧
        ∀ n : Nat, launchIter connected n st1 = (List.replicate n h, st1))
    ∧ (∀ st0 : MobileFactoryState,
      st0.driver = none →
      ∀ (d : Nat) (st1 : MobileFactoryState),
        create_driver st0 = (d, st1) →
        st1.createCalls = st0.createCalls + 1 ∧
        ∀ n : Nat, createDriverIter n st1 = (List.replicate n d, st1)) := by
  constructor
  · intro connected st0 hnone h st1 heq hc
    have hb : st1.browser = some h := launch_browser_browser_eq connected st0 h st1 heq
    refine ⟨?_, launchIter_stable connected st1 h hb hc⟩
    simp [launch_browser, hnone, launchFresh] at heq
    obtain ⟨h1, h2⟩ := heq
    subst h2
    rfl
  · intro st0 hnone d st1 heq
    simp [create_driver, hnone] at heq
    obtain ⟨h1, h2⟩ := heq
    subst h1
    subst h2
    exact ⟨rfl, createDriverIter_stable _ _ rfl⟩

/-- Witness for C2: a fresh browser factory and a fresh mobile factory, with an
always-connected engine, called three more times after the first call. -/
theorem c2_create_memoized_witness :
    ((⟨some 0, some 1, [], [], 2, 1⟩ : BrowserFactoryState).launchCalls = 0 + 1
      ∧ launchIter (fun _ => true) 3 ⟨some 0, some 1, [], [], 2, 1⟩
        = (List.replicate 3 1, ⟨some 0, some 1, [], [], 2, 1⟩))
    ∧ ((⟨some 0, 1, 1⟩ : MobileFactoryState).createCalls = 0 + 1
      ∧ createDriverIter 3 ⟨some 0, 1, 1⟩ = (List.replicate 3 0, ⟨some 0, 1, 1⟩)) := by
  constructor
  · have h := c2_create_memoized.1 (fun _ => true)
      ⟨none, none, [], [], 0, 0⟩ rfl 1 ⟨some 0, some 1, [], [], 2, 1⟩ rfl rfl
    exact ⟨h.1, h.2 3⟩
  · have h := c2_create_memoized.2 ⟨none, 0, 0⟩ rfl 0 ⟨some 0, 1, 1⟩ rfl
    exact ⟨h.1, h.2 3⟩

theorem pyTryPass_ok (e : Except PyErr Unit) : pyTryPass e = Except.ok () := by
  cases e <;> rfl

theorem closePagesLoop_eq (o : CloseOracle) (ps : List Nat) :
    closePagesLoop o ps = Except.ok (ps.map ReleaseEvent.closePage) := by
  induction ps with
  | nil => rfl
  | cons p ps ih =>
    simp [closePagesLoop, pyTryPass_ok, ih, Bind.bind, Except.bind, pure, Except.pure]

theorem closeContextsLoop_eq (o : CloseOracle) (cs : List Nat) :
    closeContextsLoop o cs = Except.ok (cs.map ReleaseEvent.closeContext) := by
  induction cs with
  | nil => rfl
  | cons c cs ih =>
    simp [closeContextsLoop, pyTryPass_ok, ih, Bind.bind, Except.bind, pure, Except.pure]

theorem browserClose_eq (o : CloseOracle) (st : BrowserFactoryState) :
    BrowserFactoryState.close o st =
      Except.ok ({ st with pages := [], contexts := [], browser := none, playwright := none }, closeTrace st) := by
  unfold BrowserFactoryState.close closeTrace
  cases hb : st.browser <;> cases hp : st.playwright <;>
    simp [closePagesLoop_eq, closeContextsLoop_eq, pyTryPass_ok, hb, hp,
      Bind.bind, Except.bind, pure, Except.pure, List.append_assoc]

/-- C3: `close()` twice in a row never raises and leaves the tracked resource
collections (pages, contexts, browser/driver, engine) empty after each call —
for both factories — and `close_page` on a handle already absent from the
tracked list does not raise either. -/
theorem c3_close_idempotent :
    (∀ (o : CloseOracle) (st : BrowserFactoryState),
      ∃ st1 evs1 st2 evs2,
        BrowserFactoryState.close o st = Except.ok (st1, evs1) ∧
        st1.pages = [] ∧ st1.contexts = [] ∧ st1.browser = none ∧ st1.playwright = none ∧
        BrowserFactoryState.close o st1 = Except.ok (st2, evs2) ∧
        st2.pages = [] ∧ st2.contexts = [] ∧ st2.browser = none ∧ st2.playwright = none)
    ∧ (∀ (o : CloseOracle) (st : MobileFactoryState),
      ∃ st1 st2,
        MobileFactoryState.close o st = Except.ok st1 ∧ st1.driver = none ∧
        MobileFactoryState.close o st1 = Except.ok st2 ∧ st2.driver = none)
    ∧ (∀ (o : CloseOracle) (p : Nat) (st : BrowserFactoryState),
      ∃ st', BrowserFactoryState.close_page o p st = Except.ok st') := by
  refine ⟨fun o st => ?_, fun o st => ?_, fun o p st => ?_⟩
  · exact ⟨_, _, _, _, browserClose_eq o st, rfl, rfl, rfl, rfl,
      browserClose_eq o _, rfl, rfl, rfl, rfl⟩
  · cases hd : st.driver with
    | none =>
      refine ⟨st, st, ?_, hd, ?_, hd⟩ <;> simp [MobileFactoryState.close, hd]
    | some d =>
      refine ⟨{ st with driver := none }, { st with driver := none }, ?_, rfl, ?_, rfl⟩
      · simp [MobileFactoryState.close, hd, pyTryPass_ok]
      · simp [MobileFactoryState.close]
  · exact ⟨if p ∈ st.pages then { st with pages := st.pages.erase p } else st,
      by simp [BrowserFactoryState.close_page, pyTryPass_ok]⟩

/-- C4: every `BrowserFactory.close()` run releases resources in the fixed
order pages → contexts → browser → Playwright engine (the `closeTrace` of the
starting state), and the outcome is identical under every failure oracle, so a
failing release step never prevents a later release from being attempted. -/
theorem c4_close_order :
    (∀ (o : CloseOracle) (st : BrowserFactoryState),
      BrowserFactoryState.close o st =
        Except.ok ({ st with pages := [], contexts := [], browser := none, playwright := none }, closeTrace st))
    ∧ (∀ (o o' : CloseOracle) (st : BrowserFactoryState),
      BrowserFactoryState.close o st = BrowserFactoryState.close o' st) :=
  ⟨fun o st => browserClose_eq o st,
   fun o o' st => (browserClose_eq o st).trans (browserClose_eq o' st).symm⟩

theorem tryCapture_ok (s : Except PyErr (List Artifact)) :
    tryCapture s = Except.ok (match s with
      | Except.ok a => a
      | Except.error _ => []) := by
  cases s <;> rfl

theorem attachPlaywrightE_ok (fa : FuncArgs) :
    ∃ arts, attachPlaywrightE fa = Except.ok arts := by
  cases hp : resolvePage fa with
  | none => simp [attachPlaywrightE, hp, pure, Except.pure]
  | some p =>
    cases hc : resolveContext fa (some p) <;>
      simp [attachPlaywrightE, hp, hc, tryCapture_ok,
        Bind.bind, Except.bind, pure, Except.pure]

theorem attachAppiumE_ok (fa : FuncArgs) :
    ∃ arts, attachAppiumE fa = Except.ok arts := by
  cases hd : resolveDriver fa <;>
    simp [attachAppiumE, hd, tryCapture_ok, Bind.bind, Except.bind, pure, Except.pure]

/-- C5: artifact collection never lets a capture failure escape (both
collectors always return normally), and when exactly one capture step raises
(page-source retrieval in both scenarios below) every other capture still runs
and its artifact is still attached. -/
theorem c5_capture_isolation :
    (∀ fa : FuncArgs, ∃ arts, attachPlaywrightE fa = Except.ok arts)
    ∧ (∀ fa : FuncArgs, ∃ arts, attachAppiumE fa = Except.ok arts)
    ∧ (∀ shot u t : String,
      attachPlaywrightE
        ⟨some ⟨Except.ok shot, Except.ok u, Except.error PyErr.err, none, none⟩,
         none, some ⟨Except.ok t⟩, none, none⟩
        = Except.ok [Artifact.screenshotA shot, Artifact.urlA u, Artifact.traceA t])
    ∧ (∀ shot info : String,
      attachAppiumE
        ⟨none, none, none,
         some ⟨Except.ok shot, Except.error PyErr.err, Except.ok info⟩, none⟩
        = Except.ok [Artifact.mScreenshotA shot, Artifact.deviceInfoA info]) :=
  ⟨attachPlaywrightE_ok, attachAppiumE_ok,
   fun shot u t => rfl, fun shot info => rfl⟩

/-- C6: when none of the well-known fixture slots yields a page or driver
handle, both failure collectors perform zero attachments and return without
raising. -/
theorem c6_no_handle_no_attach (fa : FuncArgs)
    (hp : resolvePage fa = none) (hd : resolveDriver fa = none) :
    attachPlaywrightE fa = Except.ok [] ∧ attachAppiumE fa = Except.ok [] := by
  constructor
  · simp [attachPlaywrightE, hp, pure, Except.pure]
  · simp [attachAppiumE, hd, pure, Except.pure]

/-- Witness for C6: an `item.funcargs` with none of the recognized slots. -/
theorem c6_no_handle_no_attach_witness :
    attachPlaywrightE FuncArgs.emptyArgs = Except.ok []
      ∧ attachAppiumE FuncArgs.emptyArgs = Except.ok [] :=
  c6_no_handle_no_attach FuncArgs.emptyArgs rfl rfl

/-- C9: the Appium artifact capture is nested inside the browser
`screenshot_on_failure` gate of `pytest_runtest_makereport` — with the flag
false the hook attaches nothing at all (even when a mobile driver is present),
and with the flag true a failed call-phase test with a mobile driver gets its
mobile artifacts attached. -/
theorem c9_mobile_artifacts_gated :
    (∀ (hasFuncargs : Bool) (rep : ReportInfo) (fa : FuncArgs),
      pytest_runtest_makereport false hasFuncargs rep fa = Except.ok [])
    ∧ (∀ shot src info : String,
      pytest_runtest_makereport true true ⟨"call", true⟩
        ⟨none, none, none, some ⟨Except.ok shot, Except.ok src, Except.ok info⟩, none⟩
        = Except.ok [Artifact.mScreenshotA shot, Artifact.mSourceA src,
            Artifact.deviceInfoA info]) := by
  constructor
  · intro hasFuncargs rep fa
    simp [pytest_runtest_makereport]
  · intro shot src info
    rfl

theorem pySplitOnce_not_mem (sep : Char) (l : List Char) (h : sep ∉ l) :
    pySplitOnce sep l = none := by
  induction l with
  | nil => rfl
  | cons c cs ih =>
    simp only [List.mem_cons, not_or] at h
    obtain ⟨h1, h2⟩ := h
    simp [pySplitOnce, ih h2, Ne.symm h1]

theorem pySplitOnce_append (sep : Char) (p r : List Char) (h : sep ∉ p) :
    pySplitOnce sep (p ++ sep :: r) = some (p, r) := by
  induction p with
  | nil => simp [pySplitOnce]
  | cons c cs ih =>
    simp only [List.mem_cons, not_or] at h
    obtain ⟨h1, h2⟩ := h
    simp [pySplitOnce, ih h2, Ne.symm h1]

/-- C10: mobile locator parsing is total and defaults to the accessibility-id
strategy — no `=` yields the whole string as accessibility id, and an
unrecognized strategy before the first `=` falls back to accessibility id with
the remainder after that `=` as the value. -/
theorem c10_locator_default :
    (∀ l : List Char, '=' ∉ l →
      get_locator_strategy l = (AppiumBy.ACCESSIBILITY_ID, l))
    ∧ (∀ p r : List Char, '=' ∉ p →
      strategy_map.lookup (String.mk (pyStrip (p.map Char.toLower))) = none →
      get_locator_strategy (p ++ '=' :: r) = (AppiumBy.ACCESSIBILITY_ID, r)) := by
  constructor
  · intro l h
    simp [get_locator_strategy, pySplitOnce_not_mem '=' l h]
  · intro p r h hlk
    simp [get_locator_strategy, pySplitOnce_append '=' p r h, hlk]

/-- Witness for C10: a plain accessibility-id locator and a locator with an
unrecognized `foo` strategy. -/
theorem c10_locator_default_witness :
    get_locator_strategy "loginBtn".data = (AppiumBy.ACCESSIBILITY_ID, "loginBtn".data)
      ∧ get_locator_strategy ("foo".data ++ '=' :: "bar".data)
        = (AppiumBy.ACCESSIBILITY_ID, "bar".data) :=
  ⟨c10_locator_default.1 "loginBtn".data (by decide),
   c10_locator_default.2 "foo".data "bar".data (by decide) (by decide)⟩

/-! ## Per-key characterization of the browser override pipeline -/

theorem truthyOpt_isEmpty (v : Option String) (s : String)
    (h : truthyOpt v = some s) : s.isEmpty = false := by
  cases v with
  | none => exact absurd h (by simp [truthyOpt])
  | some t =>
    by_cases ht : t.isEmpty
    · simp [truthyOpt, ht] at h
    · simp [truthyOpt, ht] at h
      subst h
      exact eq_false_of_ne_true ht

theorem envStepBool_get_same (d : PyDict) (k : String) (v : Option String) :
    pyGet (envStepBool d k v) k =
      match truthyOpt v with
      | some s => some (PyVal.bool (pyLower s == "true"))
      | none => pyGet d k := by
  cases v with
  | none => rfl
  | some s =>
    by_cases hs : s.isEmpty <;> simp [envStepBool, truthyOpt, hs, pyGet_pySet_same]

theorem envStepInt_some_get_same (d d' : PyDict) (k : String) (v : Option String)
    (h : envStepInt d k v = some d') :
    pyGet d' k = (intLayer v <|> pyGet d k) := by
  cases v with
  | none =>
    simp [envStepInt] at h
    subst h
    simp [intLayer, truthyOpt]
  | some s =>
    by_cases hs : s.isEmpty
    · simp [envStepInt, hs] at h
      subst h
      simp [intLayer, truthyOpt, hs]
    · simp [envStepInt, hs] at h
      obtain ⟨n, hn, hd⟩ := h
      subst hd
      simp [intLayer, truthyOpt, hs, hn, pyGet_pySet_same]

theorem pyGetLeaf_congr (d1 d2 : PyDict) (k1 k2 : String)
    (h : pyGet d1 k1 = pyGet d2 k1) :
    pyGetLeaf d1 k1 k2 = pyGetLeaf d2 k1 k2 := by
  unfold pyGetLeaf
  rw [h]

theorem pySetNested_leaf_same (d d' : PyDict) (k1 k2 : String) (v : PyVal)
    (h : pySetNested d k1 k2 v = some d') :
    pyGetLeaf d' k1 k2 = some v := by
  unfold pySetNested at h
  cases hg : pyGet d k1 with
  | none =>
    rw [hg] at h
    simp only [Option.some.injEq] at h
    subst h
    simp [pyGetLeaf, pyGet_pySet_same, pyGet]
  | some w =>
    rw [hg] at h
    cases w with
    | dict sub =>
      simp only [Option.some.injEq] at h
      subst h
      simp [pyGetLeaf, pyGet_pySet_same]
    | str s => exact absurd h (by simp)
    | int n => exact absurd h (by simp)
    | bool b => exact absurd h (by simp)
    | list xs => exact absurd h (by simp)

theorem pySetNested_leaf_ne (d d' : PyDict) (k1 k2 k2' : String) (v : PyVal)
    (h : pySetNested d k1 k2 v = some d') (hne : k2' ≠ k2) :
    pyGetLeaf d' k1 k2' = pyGetLeaf d k1 k2' := by
  unfold pySetNested at h
  cases hg : pyGet d k1 with
  | none =>
    rw [hg] at h
    simp only [Option.some.injEq] at h
    subst h
    simp [pyGetLeaf, pyGet_pySet_same, hg, pyGet_pySet_ne _ _ _ _ hne, pyGet, Ne.symm hne]
  | some w =>
    rw [hg] at h
    cases w with
    | dict sub =>
      simp only [Option.some.injEq] at h
      subst h
      simp [pyGetLeaf, pyGet_pySet_same, hg, pyGet_pySet_ne _ _ _ _ hne]
    | str s => exact absurd h (by simp)
    | int n => exact absurd h (by simp)
    | bool b => exact absurd h (by simp)
    | list xs => exact absurd h (by simp)

theorem envStepNestedInt_leaf_same (d d' : PyDict) (k1 k2 : String) (v : Option String)
    (h : envStepNestedInt d k1 k2 v = some d') :
    pyGetLeaf d' k1 k2 = (intLayer v <|> pyGetLeaf d k1 k2) := by
  cases v with
  | none =>
    simp [envStepNestedInt] at h
    subst h
    simp [intLayer, truthyOpt]
  | some s =>
    by_cases hs : s.isEmpty
    · simp [envStepNestedInt, hs] at h
      subst h
      simp [intLayer, truthyOpt, hs]
    · simp [envStepNestedInt, hs, Option.bind_eq_some] at h
      obtain ⟨n, hn, hd⟩ := h
      rw [pySetNested_leaf_same _ _ _ _ _ hd]
      simp [intLayer, truthyOpt, hs, hn]

theorem envStepNestedInt_leaf_ne (d d' : PyDict) (k1 k2 k2' : String) (v : Option String)
    (h : envStepNestedInt d k1 k2 v = some d') (hne : k2' ≠ k2) :
    pyGetLeaf d' k1 k2' = pyGetLeaf d k1 k2' := by
  cases v with
  | none =>
    simp [envStepNestedInt] at h
    subst h
    rfl
  | some s =>
    by_cases hs : s.isEmpty
    · simp [envStepNestedInt, hs] at h
      subst h
      rfl
    · simp [envStepNestedInt, hs, Option.bind_eq_some] at h
      obtain ⟨n, hn, hd⟩ := h
      exact pySetNested_leaf_ne _ _ _ _ _ _ hd hne

theorem applyEnvB_get_headless (d : PyDict) (env : BrowserEnv) (d' : PyDict)
    (h : applyEnvOverridesB d env = some d') :
    pyGet d' "headless" = (boolLayer env.BROWSER_HEADLESS <|> pyGet d "headless") := by
  unfold applyEnvOverridesB at h
  rw [Option.bind_eq_some] at h
  obtain ⟨d1, h1, h⟩ := h
  rw [Option.bind_eq_some] at h
  obtain ⟨d2, h2, h⟩ := h
  rw [Option.bind_eq_some] at h
  obtain ⟨d3, h3, h4⟩ := h
  rw [envStepNestedInt_some_get_ne _ _ _ _ _ "headless" h4 (by decide),
    envStepNestedInt_some_get_ne _ _ _ _ _ "headless" h3 (by decide),
    envStepInt_some_get_ne _ _ _ _ "headless" h2 (by decide),
    envStepInt_some_get_ne _ _ _ _ "headless" h1 (by decide),
    envStepBool_get_same, envStepStr_get_ne _ _ _ _ (by decide)]
  cases hb : truthyOpt env.BROWSER_HEADLESS <;> simp [boolLayer, hb]

theorem applyEnvB_get_slow_mo (d : PyDict) (env : BrowserEnv) (d' : PyDict)
    (h : applyEnvOverridesB d env = some d') :
    pyGet d' "slow_mo" = (intLayer env.BROWSER_SLOW_MO <|> pyGet d "slow_mo") := by
  unfold applyEnvOverridesB at h
  rw [Option.bind_eq_some] at h
  obtain ⟨d1, h1, h⟩ := h
  rw [Option.bind_eq_some] at h
  obtain ⟨d2, h2, h⟩ := h
  rw [Option.bind_eq_some] at h
  obtain ⟨d3, h3, h4⟩ := h
  rw [envStepNestedInt_some_get_ne _ _ _ _ _ "slow_mo" h4 (by decide),
    envStepNestedInt_some_get_ne _ _ _ _ _ "slow_mo" h3 (by decide),
    envStepInt_some_get_ne _ _ _ _ "slow_mo" h2 (by decide),
    envStepInt_some_get_same _ _ _ _ h1,
    envStepBool_get_ne _ _ _ _ (by decide), envStepStr_get_ne _ _ _ _ (by decide)]

theorem applyEnvB_get_timeout (d : PyDict) (env : BrowserEnv) (d' : PyDict)
    (h : applyEnvOverridesB d env = some d') :
    pyGet d' "timeout" = (intLayer env.BROWSER_TIMEOUT <|> pyGet d "timeout") := by
  unfold applyEnvOverridesB at h
  rw [Option.bind_eq_some] at h
  obtain ⟨d1, h1, h⟩ := h
  rw [Option.bind_eq_some] at h
  obtain ⟨d2, h2, h⟩ := h
  rw [Option.bind_eq_some] at h
  obtain ⟨d3, h3, h4⟩ := h
  rw [envStepNestedInt_some_get_ne _ _ _ _ _ "timeout" h4 (by decide),
    envStepNestedInt_some_get_ne _ _ _ _ _ "timeout" h3 (by decide),
    envStepInt_some_get_same _ _ _ _ h2,
    envStepInt_some_get_ne _ _ _ _ "timeout" h1 (by decide),
    envStepBool_get_ne _ _ _ _ (by decide), envStepStr_get_ne _ _ _ _ (by decide)]

theorem applyEnvB_get_other (d : PyDict) (env : BrowserEnv) (d' : PyDict)
    (h : applyEnvOverridesB d env = some d') (k : String)
    (hk1 : k ≠ "type") (hk2 : k ≠ "headless") (hk3 : k ≠ "slow_mo")
    (hk4 : k ≠ "timeout") (hk5 : k ≠ "viewport") :
    pyGet d' k = pyGet d k := by
  unfold applyEnvOverridesB at h
  rw [Option.bind_eq_some] at h
  obtain ⟨d1, h1, h⟩ := h
  rw [Option.bind_eq_some] at h
  obtain ⟨d2, h2, h⟩ := h
  rw [Option.bind_eq_some] at h
  obtain ⟨d3, h3, h4⟩ := h
  rw [envStepNestedInt_some_get_ne _ _ _ _ _ k h4 hk5,
    envStepNestedInt_some_get_ne _ _ _ _ _ k h3 hk5,
    envStepInt_some_get_ne _ _ _ _ k h2 hk4,
    envStepInt_some_get_ne _ _ _ _ k h1 hk3,
    envStepBool_get_ne _ _ _ _ hk2, envStepStr_get_ne _ _ _ _ hk1]

theorem applyEnvB_leaf_width (d : PyDict) (env : BrowserEnv) (d' : PyDict)
    (h : applyEnvOverridesB d env = some d') :
    pyGetLeaf d' "viewport" "width" =
      (intLayer env.BROWSER_VIEWPORT_WIDTH <|> pyGetLeaf d "viewport" "width") := by
  unfold applyEnvOverridesB at h
  rw [Option.bind_eq_some] at h
  obtain ⟨d1, h1, h⟩ := h
  rw [Option.bind_eq_some] at h
  obtain ⟨d2, h2, h⟩ := h
  rw [Option.bind_eq_some] at h
  obtain ⟨d3, h3, h4⟩ := h
  rw [envStepNestedInt_leaf_ne _ _ _ _ _ _ h4 (by decide),
    envStepNestedInt_leaf_same _ _ _ _ _ h3,
    pyGetLeaf_congr _ _ _ "width" (envStepInt_some_get_ne _ _ _ _ "viewport" h2 (by decide)),
    pyGetLeaf_congr _ _ _ "width" (envStepInt_some_get_ne _ _ _ _ "viewport" h1 (by decide)),
    pyGetLeaf_congr _ _ _ "width" (envStepBool_get_ne _ _ _ "viewport" (by decide)),
    pyGetLeaf_congr _ _ _ "width" (envStepStr_get_ne _ _ _ "viewport" (by decide))]

theorem applyEnvB_leaf_height (d : PyDict) (env : BrowserEnv) (d' : PyDict)
    (h : applyEnvOverridesB d env = some d') :
    pyGetLeaf d' "viewport" "height" =
      (intLayer env.BROWSER_VIEWPORT_HEIGHT <|> pyGetLeaf d "viewport" "height") := by
  unfold applyEnvOverridesB at h
  rw [Option.bind_eq_some] at h
  obtain ⟨d1, h1, h⟩ := h
  rw [Option.bind_eq_some] at h
  obtain ⟨d2, h2, h⟩ := h
  rw [Option.bind_eq_some] at h
  obtain ⟨d3, h3, h4⟩ := h
  rw [envStepNestedInt_leaf_same _ _ _ _ _ h4,
    envStepNestedInt_leaf_ne _ _ _ _ _ _ h3 (by decide),
    pyGetLeaf_congr _ _ _ "height" (envStepInt_some_get_ne _ _ _ _ "viewport" h2 (by decide)),
    pyGetLeaf_congr _ _ _ "height" (envStepInt_some_get_ne _ _ _ _ "viewport" h1 (by decide)),
    pyGetLeaf_congr _ _ _ "height" (envStepBool_get_ne _ _ _ "viewport" (by decide)),
    pyGetLeaf_congr _ _ _ "height" (envStepStr_get_ne _ _ _ "viewport" (by decide))]

theorem applyCliB_get_headless (d : PyDict) (cli : BrowserCliOverrides) :
    pyGet (applyCliOverridesB d cli) "headless" =
      (cliHeadlessLayer cli <|> pyGet d "headless") := by
  unfold applyCliOverridesB cliHeadlessLayer
  cases cli.browser_type with
  | none =>
    cases cli.headed <;> cases cli.headless <;> cases cli.slow_mo <;>
      simp [pyGet_pySet_ne _ _ _ _ (by decide : ("headless" : String) ≠ "slow_mo"),
        pyGet_pySet_same]
  | some s =>
    by_cases hs : s.isEmpty <;>
      cases cli.headed <;> cases cli.headless <;> cases cli.slow_mo <;>
      simp [hs,
        pyGet_pySet_ne _ _ _ _ (by decide : ("headless" : String) ≠ "slow_mo"),
        pyGet_pySet_ne _ _ _ _ (by decide : ("headless" : String) ≠ "type"),
        pyGet_pySet_same]

theorem applyCliB_get_slow_mo (d : PyDict) (cli : BrowserCliOverrides) :
    pyGet (applyCliOverridesB d cli) "slow_mo" =
      ((cli.slow_mo.map PyVal.int) <|> pyGet d "slow_mo") := by
  unfold applyCliOverridesB
  cases cli.browser_type with
  | none =>
    cases cli.headed <;> cases cli.headless <;> cases cli.slow_mo <;>
      simp [pyGet_pySet_ne _ _ _ _ (by decide : ("slow_mo" : String) ≠ "headless"),
        pyGet_pySet_same]
  | some s =>
    by_cases hs : s.isEmpty <;>
      cases cli.headed <;> cases cli.headless <;> cases cli.slow_mo <;>
      simp [hs,
        pyGet_pySet_ne _ _ _ _ (by decide : ("slow_mo" : String) ≠ "headless"),
        pyGet_pySet_ne _ _ _ _ (by decide : ("slow_mo" : String) ≠ "type"),
        pyGet_pySet_same]

theorem applyCliB_get_other (d : PyDict) (cli : BrowserCliOverrides) (k : String)
    (hk1 : k ≠ "type") (hk2 : k ≠ "headless") (hk3 : k ≠ "slow_mo") :
    pyGet (applyCliOverridesB d cli) k = pyGet d k := by
  unfold applyCliOverridesB
  cases cli.browser_type with
  | none =>
    cases cli.headed <;> cases cli.headless <;> cases cli.slow_mo <;>
      simp [pyGet_pySet_ne _ _ _ _ hk1, pyGet_pySet_ne _ _ _ _ hk2,
        pyGet_pySet_ne _ _ _ _ hk3]
  | some s =>
    by_cases hs : s.isEmpty <;>
      cases cli.headed <;> cases cli.headless <;> cases cli.slow_mo <;>
      simp [hs, pyGet_pySet_ne _ _ _ _ hk1, pyGet_pySet_ne _ _ _ _ hk2,
        pyGet_pySet_ne _ _ _ _ hk3]

theorem fromDict_some_fields (m : PyDict) (r : BrowserConfigR)
    (h : BrowserConfigR.fromDict m = some r) :
    r.browser_type = pyOrVal (pyGet m "type") (pyGetD m "default" (PyVal.str "chromium"))
    ∧ r.headless = pyGetD m "headless" (PyVal.bool true)
    ∧ r.slow_mo = pyGetD m "slow_mo" (PyVal.int 0)
    ∧ r.timeout = pyGetD m "timeout" (PyVal.int 30000)
    ∧ r.viewport_width = (pyGetLeaf m "viewport" "width").getD (PyVal.int 1920)
    ∧ r.viewport_height = (pyGetLeaf m "viewport" "height").getD (PyVal.int 1080) := by
  unfold BrowserConfigR.fromDict at h
  rw [Option.bind_eq_some] at h
  obtain ⟨vp, hvp, h⟩ := h
  rw [Option.bind_eq_some] at h
  obtain ⟨bs, hbs, hr⟩ := h
  simp only [Option.some.injEq] at hr
  subst hr
  cases hv : pyGet m "viewport" with
  | none =>
    rw [hv] at hvp
    simp only [Option.some.injEq] at hvp
    subst hvp
    simp [pyGetLeaf, hv, pyGetD, pyGet]
  | some w =>
    rw [hv] at hvp
    cases w with
    | dict sub =>
      simp only [Option.some.injEq] at hvp
      subst hvp
      simp [pyGetLeaf, hv, pyGetD]
    | str s => exact absurd hvp (by simp)
    | int n => exact absurd hvp (by simp)
    | bool b => exact absurd hvp (by simp)
    | list xs => exact absurd hvp (by simp)

theorem buildConfigB_resolved (d : PyDict) (env : BrowserEnv) (cli : BrowserCliOverrides)
    (r : BrowserConfigR) (h : buildConfigB d env cli = some r) :
    r.browser_type = (strLayer cli.browser_type <|> strLayer env.BROWSER_TYPE).getD
      (pyOrVal (pyGet d "type") (pyGetD d "default" (PyVal.str "chromium")))
    ∧ r.headless = (cliHeadlessLayer cli <|> boolLayer env.BROWSER_HEADLESS <|>
        pyGet d "headless").getD (PyVal.bool true)
    ∧ r.slow_mo = ((cli.slow_mo.map PyVal.int) <|> intLayer env.BROWSER_SLOW_MO <|>
        pyGet d "slow_mo").getD (PyVal.int 0)
    ∧ r.timeout = (intLayer env.BROWSER_TIMEOUT <|> pyGet d "timeout").getD (PyVal.int 30000)
    ∧ r.viewport_width = (intLayer env.BROWSER_VIEWPORT_WIDTH <|>
        pyGetLeaf d "viewport" "width").getD (PyVal.int 1920)
    ∧ r.viewport_height = (intLayer env.BROWSER_VIEWPORT_HEIGHT <|>
        pyGetLeaf d "viewport" "height").getD (PyVal.int 1080) := by
  unfold buildConfigB at h
  rw [Option.bind_eq_some] at h
  obtain ⟨m', henv, hfd⟩ := h
  have hf := fromDict_some_fields _ _ hfd
  refine ⟨?_, ?_, ?_, ?_, ?_, ?_⟩
  · rw [hf.1]
    unfold pyGetD
    rw [applyCliB_get_type, applyEnvB_get_type d env m' henv,
      applyCliB_get_other _ _ _ (by decide) (by decide) (by decide),
      applyEnvB_get_other d env m' henv "default"
        (by decide) (by decide) (by decide) (by decide) (by decide)]
    cases hc : truthyOpt cli.browser_type with
    | some s =>
      simp [strLayer, hc, pyOrVal, pyTruthy, truthyOpt_isEmpty _ _ hc, pyGetD]
    | none =>
      cases he : truthyOpt env.BROWSER_TYPE with
      | some s =>
        simp [strLayer, hc, he, pyOrVal, pyTruthy, truthyOpt_isEmpty _ _ he, pyGetD]
      | none => simp [strLayer, hc, he, pyGetD]
  · rw [hf.2.1]
    unfold pyGetD
    rw [applyCliB_get_headless, applyEnvB_get_headless d env m' henv]
  · rw [hf.2.2.1]
    unfold pyGetD
    rw [applyCliB_get_slow_mo, applyEnvB_get_slow_mo d env m' henv]
  · rw [hf.2.2.2.1]
    unfold pyGetD
    rw [applyCliB_get_other _ _ _ (by decide) (by decide) (by decide),
      applyEnvB_get_timeout d env m' henv]
  · rw [hf.2.2.2.2.1,
      pyGetLeaf_congr _ _ _ "width"
        (applyCliB_get_other _ _ _ (by decide) (by decide) (by decide)),
      applyEnvB_leaf_width d env m' henv]
  · rw [hf.2.2.2.2.2,
      pyGetLeaf_congr _ _ _ "height"
        (applyCliB_get_other _ _ _ (by decide) (by decide) (by decide)),
      applyEnvB_leaf_height d env m' henv]

/-! ## Field-by-field characterization of the mobile override passes -/

theorem applyEnvOverridesM_eq (c : MobileConfig) (env : MobileEnv) :
    applyEnvOverridesM c env =
      { platform := ((truthyOpt env.MOBILE_PLATFORM).map pyLower).getD c.platform
        appium_server := (truthyOpt env.MOBILE_APPIUM_SERVER).getD c.appium_server
        android_device_name := (truthyOpt env.MOBILE_DEVICE_NAME).getD c.android_device_name
        android_platform_version :=
          (truthyOpt env.MOBILE_PLATFORM_VERSION).getD c.android_platform_version
        android_app_path := (truthyOpt env.MOBILE_APP_PATH) <|> c.android_app_path
        android_app_package := c.android_app_package
        android_app_activity := c.android_app_activity
        android_automation_name := c.android_automation_name
        ios_device_name := (truthyOpt env.MOBILE_DEVICE_NAME).getD c.ios_device_name
        ios_platform_version :=
          (truthyOpt env.MOBILE_PLATFORM_VERSION).getD c.ios_platform_version
        ios_app_path := (truthyOpt env.MOBILE_APP_PATH) <|> c.ios_app_path
        ios_bundle_id := c.ios_bundle_id
        ios_udid := (truthyOpt env.MOBILE_UDID) <|> c.ios_udid
        ios_automation_name := c.ios_automation_name
        new_command_timeout := c.new_command_timeout
        implicit_wait := c.implicit_wait
        no_reset :=
          ((truthyOpt env.MOBILE_NO_RESET).map (fun s => pyLower s == "true")).getD c.no_reset
        full_reset :=
          ((truthyOpt env.MOBILE_FULL_RESET).map (fun s => pyLower s == "true")).getD c.full_reset
        screenshot_on_failure := c.screenshot_on_failure } := by
  unfold applyEnvOverridesM
  cases truthyOpt env.MOBILE_PLATFORM <;>
  cases truthyOpt env.MOBILE_APPIUM_SERVER <;>
  cases truthyOpt env.MOBILE_DEVICE_NAME <;>
  cases truthyOpt env.MOBILE_PLATFORM_VERSION <;>
  cases truthyOpt env.MOBILE_APP_PATH <;>
  cases truthyOpt env.MOBILE_UDID <;>
  cases truthyOpt env.MOBILE_NO_RESET <;>
  cases truthyOpt env.MOBILE_FULL_RESET <;>
  rfl

theorem applyCliOverridesM_eq (c : MobileConfig) (cli : MobileCliOverrides) :
    applyCliOverridesM c cli =
      { platform := ((truthyOpt cli.platform).map pyLower).getD c.platform
        appium_server := c.appium_server
        android_device_name := (truthyOpt cli.device_name).getD c.android_device_name
        android_platform_version := c.android_platform_version
        android_app_path := (truthyOpt cli.app_path) <|> c.android_app_path
        android_app_package := c.android_app_package
        android_app_activity := c.android_app_activity
        android_automation_name := c.android_automation_name
        ios_device_name := (truthyOpt cli.device_name).getD c.ios_device_name
        ios_platform_version := c.ios_platform_version
        ios_app_path := (truthyOpt cli.app_path) <|> c.ios_app_path
        ios_bundle_id := c.ios_bundle_id
        ios_udid := (truthyOpt cli.udid) <|> c.ios_udid
        ios_automation_name := c.ios_automation_name
        new_command_timeout := c.new_command_timeout
        implicit_wait := c.implicit_wait
        no_reset := cli.no_reset.getD c.no_reset
        full_reset := c.full_reset
        screenshot_on_failure := c.screenshot_on_failure } := by
  unfold applyCliOverridesM
  cases truthyOpt cli.platform <;>
  cases truthyOpt cli.device_name <;>
  cases truthyOpt cli.app_path <;>
  cases truthyOpt cli.udid <;>
  cases cli.no_reset <;>
  rfl

/-- C1: for every configuration key supplied by more than one override layer,
the resolved configuration value equals the value from the highest-precedence
layer that defines it (CLI > env > file > compiled-in default), each layer
contributing its fixed coercion. Proved for all multi-layer keys of the
resolved `MobileConfig` (platform — incl. the `MOBILE_PLATFORM=ios` vs CLI
`android` scenario —, appium_server, device names, platform versions, app
paths, udid, no_reset, full_reset) and for all multi-layer keys of the
resolved browser config (type, headless, slow_mo, timeout, viewport width and
height) whenever the build succeeds. -/
theorem c1_layered_precedence :
    (∀ (core : MobileCoreConfig) (data : MobileDataConfig)
        (env : MobileEnv) (cli : MobileCliOverrides),
      (buildConfigM core data env cli).platform =
        (((truthyOpt cli.platform).map pyLower) <|>
         ((truthyOpt env.MOBILE_PLATFORM).map pyLower) <|>
         data.android.platform).getD "android")
    ∧ (∀ (core : MobileCoreConfig) (data : MobileDataConfig)
        (env : MobileEnv) (cli : MobileCliOverrides),
      (buildConfigM core data env cli).appium_server =
        ((truthyOpt env.MOBILE_APPIUM_SERVER) <|> core.mobile.appium_server).getD
          "http://localhost:4723")
    ∧ (∀ (core : MobileCoreConfig) (data : MobileDataConfig)
        (env : MobileEnv) (cli : MobileCliOverrides),
      (buildConfigM core data env cli).android_device_name =
        ((truthyOpt cli.device_name) <|> (truthyOpt env.MOBILE_DEVICE_NAME) <|>
         data.android.device_name).getD "emulator-5554"
      ∧ (buildConfigM core data env cli).ios_device_name =
        ((truthyOpt cli.device_name) <|> (truthyOpt env.MOBILE_DEVICE_NAME) <|>
         data.ios.device_name).getD "iPhone 14")
    ∧ (∀ (core : MobileCoreConfig) (data : MobileDataConfig)
        (env : MobileEnv) (cli : MobileCliOverrides),
      (buildConfigM core data env cli).android_platform_version =
        ((truthyOpt env.MOBILE_PLATFORM_VERSION) <|> data.android.platform_version).getD "13"
      ∧ (buildConfigM core data env cli).ios_platform_version =
        ((truthyOpt env.MOBILE_PLATFORM_VERSION) <|> data.ios.platform_version).getD "16.0")
    ∧ (∀ (core : MobileCoreConfig) (data : MobileDataConfig)
        (env : MobileEnv) (cli : MobileCliOverrides),
      (buildConfigM core data env cli).android_app_path =
        ((truthyOpt cli.app_path) <|> (truthyOpt env.MOBILE_APP_PATH) <|>
         data.android.app_path)
      ∧ (buildConfigM core data env cli).ios_app_path =
        ((truthyOpt cli.app_path) <|> (truthyOpt env.MOBILE_APP_PATH) <|>
         data.ios.app_path))
    ∧ (∀ (core : MobileCoreConfig) (data : MobileDataConfig)
        (env : MobileEnv) (cli : MobileCliOverrides),
      (buildConfigM core data env cli).ios_udid =
        ((truthyOpt cli.udid) <|> (truthyOpt env.MOBILE_UDID) <|> data.ios.udid))
    ∧ (∀ (core : MobileCoreConfig) (data : MobileDataConfig)
        (env : MobileEnv) (cli : MobileCliOverrides),
      (buildConfigM core data env cli).no_reset =
        (cli.no_reset <|>
         (truthyOpt env.MOBILE_NO_RESET).map (fun s => pyLower s == "true") <|>
         core.mobile.no_reset).getD false)
    ∧ (∀ (core : MobileCoreConfig) (data : MobileDataConfig)
        (env : MobileEnv) (cli : MobileCliOverrides),
      (buildConfigM core data env cli).full_reset =
        ((truthyOpt env.MOBILE_FULL_RESET).map (fun s => pyLower s == "true") <|>
         core.mobile.full_reset).getD false)
    ∧ (∀ (core : MobileCoreConfig) (data : MobileDataConfig)
        (env : MobileEnv) (cli : MobileCliOverrides),
      (buildConfigM core data
        { env with MOBILE_PLATFORM := some "ios" }
        { cli with platform := some "android" }).platform = "android")
    ∧ (∀ (d : PyDict) (env : BrowserEnv) (cli : BrowserCliOverrides) (r : BrowserConfigR),
      buildConfigB d env cli = some r →
      r.browser_type = (strLayer cli.browser_type <|> strLayer env.BROWSER_TYPE).getD
        (pyOrVal (pyGet d "type") (pyGetD d "default" (PyVal.str "chromium")))
      ∧ r.headless = (cliHeadlessLayer cli <|> boolLayer env.BROWSER_HEADLESS <|>
          pyGet d "headless").getD (PyVal.bool true)
      ∧ r.slow_mo = ((cli.slow_mo.map PyVal.int) <|> intLayer env.BROWSER_SLOW_MO <|>
          pyGet d "slow_mo").getD (PyVal.int 0)
      ∧ r.timeout = (intLayer env.BROWSER_TIMEOUT <|> pyGet d "timeout").getD (PyVal.int 30000)
      ∧ r.viewport_width = (intLayer env.BROWSER_VIEWPORT_WIDTH <|>
          pyGetLeaf d "viewport" "width").getD (PyVal.int 1920)
      ∧ r.viewport_height = (intLayer env.BROWSER_VIEWPORT_HEIGHT <|>
          pyGetLeaf d "viewport" "height").getD (PyVal.int 1080)) := by
  refine ⟨fun core data env cli => buildConfigM_platform core data env cli,
    fun core data env cli => ?_, fun core data env cli => ⟨?_, ?_⟩,
    fun core data env cli => ⟨?_, ?_⟩, fun core data env cli => ⟨?_, ?_⟩,
    fun core data env cli => ?_, fun core data env cli => ?_,
    fun core data env cli => ?_, fun core data env cli => ?_,
    fun d env cli r h => buildConfigB_resolved d env cli r h⟩
  · unfold buildConfigM
    rw [applyEnvOverridesM_eq, applyCliOverridesM_eq]
    cases he : truthyOpt env.MOBILE_APPIUM_SERVER <;> simp [MobileConfig.fromDict, he]
  · unfold buildConfigM
    rw [applyEnvOverridesM_eq, applyCliOverridesM_eq]
    cases hc : truthyOpt cli.device_name <;> cases he : truthyOpt env.MOBILE_DEVICE_NAME <;>
      simp [MobileConfig.fromDict, hc, he]
  · unfold buildConfigM
    rw [applyEnvOverridesM_eq, applyCliOverridesM_eq]
    cases hc : truthyOpt cli.device_name <;> cases he : truthyOpt env.MOBILE_DEVICE_NAME <;>
      simp [MobileConfig.fromDict, hc, he]
  · unfold buildConfigM
    rw [applyEnvOverridesM_eq, applyCliOverridesM_eq]
    cases he : truthyOpt env.MOBILE_PLATFORM_VERSION <;> simp [MobileConfig.fromDict, he]
  · unfold buildConfigM
    rw [applyEnvOverridesM_eq, applyCliOverridesM_eq]
    cases he : truthyOpt env.MOBILE_PLATFORM_VERSION <;> simp [MobileConfig.fromDict, he]
  · unfold buildConfigM
    rw [applyEnvOverridesM_eq, applyCliOverridesM_eq]
    cases hc : truthyOpt cli.app_path <;> cases he : truthyOpt env.MOBILE_APP_PATH <;>
      simp [MobileConfig.fromDict, hc, he]
  · unfold buildConfigM
    rw [applyEnvOverridesM_eq, applyCliOverridesM_eq]
    cases hc : truthyOpt cli.app_path <;> cases he : truthyOpt env.MOBILE_APP_PATH <;>
      simp [MobileConfig.fromDict, hc, he]
  · unfold buildConfigM
    rw [applyEnvOverridesM_eq, applyCliOverridesM_eq]
    cases hc : truthyOpt cli.udid <;> cases he : truthyOpt env.MOBILE_UDID <;>
      simp [MobileConfig.fromDict, hc, he]
  · unfold buildConfigM
    rw [applyEnvOverridesM_eq, applyCliOverridesM_eq]
    cases hc : cli.no_reset <;> cases he : truthyOpt env.MOBILE_NO_RESET <;>
      simp [MobileConfig.fromDict, hc, he]
  · unfold buildConfigM
    rw [applyEnvOverridesM_eq, applyCliOverridesM_eq]
    cases he : truthyOpt env.MOBILE_FULL_RESET <;> simp [MobileConfig.fromDict, he]
  · rw [buildConfigM_platform]
    rfl

/-- Witness for C1: a build through the full browser pipeline (file config
with headless/slow_mo, env `BROWSER_TIMEOUT=60000`, CLI `--browser-type
firefox --headless false`) resolves type from the CLI layer and headless from
the CLI layer. -/
theorem c1_layered_precedence_witness :
    ((⟨PyVal.str "firefox", PyVal.bool false, PyVal.int 7, PyVal.int 60000,
        PyVal.int 1920, PyVal.int 1080, PyVal.bool true, PyVal.bool false,
        PyVal.bool true, PyVal.list []⟩ : BrowserConfigR).browser_type
      = (strLayer (some "firefox") <|> strLayer none).getD
          (pyOrVal
            (pyGet [("headless", PyVal.bool true), ("slow_mo", PyVal.int 7)] "type")
            (pyGetD [("headless", PyVal.bool true), ("slow_mo", PyVal.int 7)] "default"
              (PyVal.str "chromium"))))
    ∧ ((⟨PyVal.str "firefox", PyVal.bool false, PyVal.int 7, PyVal.int 60000,
        PyVal.int 1920, PyVal.int 1080, PyVal.bool true, PyVal.bool false,
        PyVal.bool true, PyVal.list []⟩ : BrowserConfigR).headless
      = (cliHeadlessLayer ⟨some "firefox", false, some false, none⟩ <|>
         boolLayer none <|>
         pyGet [("headless", PyVal.bool true), ("slow_mo", PyVal.int 7)] "headless").getD
          (PyVal.bool true)) := by
  have h := c1_layered_precedence.2.2.2.2.2.2.2.2.2
    [("headless", PyVal.bool true), ("slow_mo", PyVal.int 7)]
    ⟨none, none, none, some "60000", none, none⟩
    ⟨some "firefox", false, some false, none⟩
    ⟨PyVal.str "firefox", PyVal.bool false, PyVal.int 7, PyVal.int 60000,
     PyVal.int 1920, PyVal.int 1080, PyVal.bool true, PyVal.bool false,
     PyVal.bool true, PyVal.list []⟩ rfl
  exact ⟨h.1, h.2.1⟩

/-- C7: each of the six recognized environment variables overrides exactly its
one mapped configuration key with its fixed coercion — BROWSER_TYPE (string),
BROWSER_HEADLESS (boolean via lowercased comparison with "true"),
BROWSER_SLOW_MO and BROWSER_TIMEOUT (int), BROWSER_VIEWPORT_WIDTH and
BROWSER_VIEWPORT_HEIGHT (int, written at the nested leaf) — every other key is
left untouched; and with file `headless=true`, env `BROWSER_HEADLESS=false`
and no CLI headless override, the resolved headless value is false. -/
theorem c7_env_coercion :
    (∀ (d : PyDict) (s : String), s.isEmpty = false →
      applyEnvOverridesB d { BrowserEnv.empty with BROWSER_TYPE := some s }
        = some (pySet d "type" (PyVal.str s)))
    ∧ (∀ (d : PyDict) (s : String), s.isEmpty = false →
      applyEnvOverridesB d { BrowserEnv.empty with BROWSER_HEADLESS := some s }
        = some (pySet d "headless" (PyVal.bool (pyLower s == "true"))))
    ∧ (∀ (d : PyDict) (s : String) (n : Int), s.isEmpty = false → pyInt s = some n →
      applyEnvOverridesB d { BrowserEnv.empty with BROWSER_SLOW_MO := some s }
        = some (pySet d "slow_mo" (PyVal.int n)))
    ∧ (∀ (d : PyDict) (s : String) (n : Int), s.isEmpty = false → pyInt s = some n →
      applyEnvOverridesB d { BrowserEnv.empty with BROWSER_TIMEOUT := some s }
        = some (pySet d "timeout" (PyVal.int n)))
    ∧ (∀ (d : PyDict) (s : String) (n : Int), s.isEmpty = false → pyInt s = some n →
      applyEnvOverridesB d { BrowserEnv.empty with BROWSER_VIEWPORT_WIDTH := some s }
        = pySetNested d "viewport" "width" (PyVal.int n))
    ∧ (∀ (d : PyDict) (s : String) (n : Int), s.isEmpty = false → pyInt s = some n →
      applyEnvOverridesB d { BrowserEnv.empty with BROWSER_VIEWPORT_HEIGHT := some s }
        = pySetNested d "viewport" "height" (PyVal.int n))
    ∧ (∀ (d : PyDict) (k : String) (v : PyVal) (k' : String), k' ≠ k →
      pyGet (pySet d k v) k' = pyGet d k')
    ∧ (∀ (d d' : PyDict) (k1 k2 k' : String) (v : PyVal),
      pySetNested d k1 k2 v = some d' → k' ≠ k1 → pyGet d' k' = pyGet d k')
    ∧ (buildConfigB [("headless", PyVal.bool true)]
        { BrowserEnv.empty with BROWSER_HEADLESS := some "false" }
        BrowserCliOverrides.empty).map (fun r => r.headless)
      = some (PyVal.bool false) := by
  refine ⟨fun d s hs => ?_, fun d s hs => ?_, fun d s n hs hn => ?_,
    fun d s n hs hn => ?_, fun d s n hs hn => ?_, fun d s n hs hn => ?_,
    fun d k v k' hk => pyGet_pySet_ne d k k' v hk,
    fun d d' k1 k2 k' v h hk => pySetNested_some_get_ne d d' k1 k2 k' v h hk, ?_⟩
  · simp [applyEnvOverridesB, envStepStr, envStepBool, envStepInt, envStepNestedInt,
      BrowserEnv.empty, hs]
  · simp [applyEnvOverridesB, envStepStr, envStepBool, envStepInt, envStepNestedInt,
      BrowserEnv.empty, hs]
  · simp [applyEnvOverridesB, envStepStr, envStepBool, envStepInt, envStepNestedInt,
      BrowserEnv.empty, hs, hn]
  · simp [applyEnvOverridesB, envStepStr, envStepBool, envStepInt, envStepNestedInt,
      BrowserEnv.empty, hs, hn]
  · cases hp : pySetNested d "viewport" "width" (PyVal.int n) <;>
      simp [applyEnvOverridesB, envStepStr, envStepBool, envStepInt, envStepNestedInt,
        BrowserEnv.empty, hs, hn, hp]
  · simp [applyEnvOverridesB, envStepStr, envStepBool, envStepInt, envStepNestedInt,
      BrowserEnv.empty, hs, hn]
  · rfl

/-- Witness for C7: all six environment variables exercised at concrete values
(type firefox, headless false, slow_mo 50, timeout 60000, viewport width 1500
over an existing height leaf, viewport height 900), plus the untouched-key
check at "type". -/
theorem c7_env_coercion_witness :
    applyEnvOverridesB [] { BrowserEnv.empty with BROWSER_TYPE := some "firefox" }
      = some (pySet [] "type" (PyVal.str "firefox"))
    ∧ applyEnvOverridesB [] { BrowserEnv.empty with BROWSER_HEADLESS := some "false" }
      = some (pySet [] "headless" (PyVal.bool (pyLower "false" == "true")))
    ∧ applyEnvOverridesB [] { BrowserEnv.empty with BROWSER_SLOW_MO := some "50" }
      = some (pySet [] "slow_mo" (PyVal.int 50))
    ∧ applyEnvOverridesB [] { BrowserEnv.empty with BROWSER_TIMEOUT := some "60000" }
      = some (pySet [] "timeout" (PyVal.int 60000))
    ∧ applyEnvOverridesB [("viewport", PyVal.dict [("height", PyVal.int 700)])]
        { BrowserEnv.empty with BROWSER_VIEWPORT_WIDTH := some "1500" }
      = pySetNested [("viewport", PyVal.dict [("height", PyVal.int 700)])]
          "viewport" "width" (PyVal.int 1500)
    ∧ applyEnvOverridesB [] { BrowserEnv.empty with BROWSER_VIEWPORT_HEIGHT := some "900" }
      = pySetNested [] "viewport" "height" (PyVal.int 900)
    ∧ pyGet (pySet [] "headless" (PyVal.bool false)) "type" = pyGet [] "type" :=
  ⟨c7_env_coercion.1 [] "firefox" rfl,
   c7_env_coercion.2.1 [] "false" rfl,
   c7_env_coercion.2.2.1 [] "50" 50 rfl (by decide),
   c7_env_coercion.2.2.2.1 [] "60000" 60000 rfl (by decide),
   c7_env_coercion.2.2.2.2.1 [("viewport", PyVal.dict [("height", PyVal.int 700)])]
     "1500" 1500 rfl (by decide),
   c7_env_coercion.2.2.2.2.2.1 [] "900" 900 rfl (by decide),
   c7_env_coercion.2.2.2.2.2.2.1 [] "headless" (PyVal.bool false) "type" (by decide)⟩
